import Mathlib

/-!
Shallow embedding of `lib/paymentrequest.py` (Electrum payment-request
verification) together with proofs about its verification behaviour.

External collaborators of the verification core (the `x509` certificate
module, hash and RSA primitives, protobuf serialization and the DNS alias
resolver) are modelled abstractly following the collaborator interfaces the
spec describes; the control flow of `verify`, `verify_x509`,
`verify_dnssec`, `has_expired`, `get_requestor` and
`InvoiceStore.get_status` is translated statement by statement from the
source.
-/

/-- Python exception kinds that can escape the modelled functions
(uncaught `ParseFromString` / `parseBinary` failures, `dict` key errors,
list index errors, use of an unbound local, attribute access on `None`). -/
inductive PyExn where
  | parseError
  | keyError
  | indexError
  | nameError
  | attributeError
deriving DecidableEq

/-- Python value returned by the verify functions: `None` (a bare
`return`), `False` or `True`. -/
inductive PyRet where
  | pyNone
  | pyFalse
  | pyTrue
deriving DecidableEq

/-- Truthiness of a verify return value: only `True` is truthy. -/
def PyRet.isTruthy : PyRet → Bool
  | .pyTrue => true
  | _ => false

/-- Modelled from the spec: signature-algorithm identifiers exposed by the
external `x509` module (`ALGO_RSA_SHA1`, `ALGO_RSA_SHA256`,
`ALGO_RSA_SHA384`, `ALGO_RSA_SHA512`); any other identifier is represented
by `unknownAlgo`. -/
inductive SigAlgo where
  | rsaSha1
  | rsaSha256
  | rsaSha384
  | rsaSha512
  | unknownAlgo (id : Nat)
deriving DecidableEq

/-- Modelled from the spec: the certificate abstraction the core consumes
from the external `x509` module.  `checkDateErr` is the outcome of
`check_date` (`none` = within the validity window, `some e` = raises an
exception whose string form is `e`); `sigAlgo`, `sigBytes` and
`signedData` are the triple returned by `get_signature` (the signature its
issuer placed on this certificate, over `signedData`). -/
structure X509 where
  commonName : String
  checkDateErr : Option String
  isCA : Bool
  fingerprint : String
  issuerKeyID : String
  publicKey : Nat
  sigAlgo : SigAlgo
  sigBytes : List Nat
  signedData : List Nat
deriving DecidableEq

/-- Modelled from the spec: the hash and signature-verification
primitives the core consumes (`hashlib` digests, tlslite RSA `verify` /
`hashAndVerify`, and `bitcoin.verify_message`). -/
structure CryptoOps where
  sha256 : List Nat → List Nat
  sha384 : List Nat → List Nat
  sha512 : List Nat → List Nat
  rsaVerify : Nat → List Nat → List Nat → Bool
  hashAndVerify : Nat → List Nat → List Nat → Bool
  verifyMessage : String → List Nat → List Nat → Bool

/-- Modelled from the spec: fixed ASN.1 digest-algorithm prefix bytes
(`PREFIX_RSA_SHA256` of the external `x509` module); the exact byte values
are opaque to the verification core. -/
def PFX_RSA_SHA256 : List Nat := [2, 5, 6]

/-- Modelled from the spec: fixed ASN.1 digest-algorithm prefix bytes for
SHA-384. -/
def PFX_RSA_SHA384 : List Nat := [3, 8, 4]

/-- Modelled from the spec: fixed ASN.1 digest-algorithm prefix bytes for
SHA-512. -/
def PFX_RSA_SHA512 : List Nat := [5, 1, 2]

/-- One raw certificate blob inside the `X509Certificates` payload:
either `x509.X509().parseBinary` succeeds on it, or it raises. -/
inductive CertBlob where
  | bad (msg : String)
  | good (c : X509)
deriving DecidableEq

/-- Outcome of `pb2.X509Certificates().ParseFromString` on the PKI data
bytes: either the bytes are malformed (the call raises) or they decode to
an ordered list of certificate blobs. -/
inductive ParsedCerts where
  | malformed
  | ok (blobs : List CertBlob)
deriving DecidableEq

/-- The `pki_data` bytes of an envelope, modelled by their two possible
observations: decoding as a certificate list (x509 path) and reading as an
alias string (dnssec path). -/
structure PkiData where
  asCerts : ParsedCerts
  asAlias : String
deriving DecidableEq

/-- Decoded `pb2.PaymentRequest` wire envelope, restricted to the fields
the verification core reads. -/
structure PbPaymentRequest where
  pkiType : String
  pkiData : PkiData
  signature : List Nat
deriving DecidableEq

/-- Raw bytes handed to `PaymentRequest`: empty (falsy), bytes on which
`pb2.PaymentRequest().ParseFromString` raises, or bytes decoding to an
envelope. -/
inductive RawData where
  | empty
  | malformed
  | valid (env : PbPaymentRequest)
deriving DecidableEq

/-- The process-wide trust store: `ca_list` maps a fingerprint to a
trusted root certificate, `ca_keyID` maps an issuer key identifier to the
fingerprint of the corresponding trusted root. -/
structure TrustStore where
  caList : List (String × X509)
  caKeyID : List (String × String)

/-- Result of `contacts.resolve(alias)`: the dict's `validated` entry
(`info.get` returns `none` when absent) and its `address` entry. -/
structure ResolveInfo where
  validated : Option Bool
  address : String

/-- Mutable outcome of a verify call: the Python return value together
with the entity's `requestor` and `error` fields afterwards. -/
structure VerifyOut where
  ret : PyRet
  requestor : Option String
  error : Option String
deriving DecidableEq

/-- Error message set when the trust store failed to load. -/
def noTrustStoreMsg : String := "Trusted certificate authorities list not found"

/-- Error message set when fewer than two certificates were supplied. -/
def noCertsMsg : String := "ERROR: CA Certificate Chain Not Provided by Payment Processor"

/-- Error message set when a non-leaf certificate lacks the CA flag. -/
def caFlagMsg : String := "ERROR: Supplied CA Certificate Error"

/-- Error message set when the chain's root is not in the trust store and
no root could be recovered by issuer key identifier. -/
def untrustedCAMsg : String := "Supplied CA Not Found in Trusted CA Store."

/-- Error message set when a chain-link signature algorithm is not one of
the four supported RSA algorithms. -/
def algoUnsupportedMsg : String := "Algorithm not supported"

/-- Error message set when a chain-link signature fails to verify. -/
def chainSigFailMsg : String := "Certificate not Signed by Provided CA Certificate Chain"

/-- Error message set when the top-level envelope signature fails. -/
def envSigFailMsg : String := "ERROR: Invalid Signature for Payment Request Data"

/-- Error message set when the raw request bytes are empty. -/
def emptyRequestMsg : String := "Empty request"

/-- Error message set when the envelope carries no signature. -/
def noSignatureMsg : String := "No signature"

/-- Error message set for an unrecognized PKI type. -/
def unsupportedPkiMsg : String := "ERROR: Unsupported PKI Type for Message Signature"

/-- Error message set when the alias resolver does not report the alias as
DNSSEC-validated. -/
def aliasUnverifiedMsg : String := "Alias verification failed (DNSSEC)"

/-- Error message set when the dnssec signature check fails. -/
def dnssecSigFailMsg : String := "verify failed"

/-- Error message set by `verify_dnssec` for a dnssec PKI type other than
`dnssec+btc` (in particular `dnssec+ecdsa`). -/
def unknownAlgoMsg : String := "unknown algo"

/-- Success message of the x509 path. -/
def signedByMsg (cn : String) : String := "Signed by Trusted CA: " ++ cn

/-- Success message of the dnssec path. -/
def dnssecOkMsg : String := "Verified with DNSSEC"

/-- Wildcard stripping applied to the leaf's common name: if the name
starts with the two characters `*.` they are dropped (Python
`startswith` followed by slicing off two characters). -/
def stripWildcard (s : String) : String :=
  match s.data with
  | '*' :: '.' :: rest => String.mk rest
  | _ => s

/-- Body of the certificate-parsing loop for indices `i ≥ 1`: parse each
remaining blob (raising on a malformed one) and require the CA flag,
returning `None` with the CA error message otherwise. -/
def processRest (req : Option String) (acc : List X509) :
    List CertBlob → Except PyExn (Except VerifyOut (List X509 × Option String))
  | [] => Except.ok (Except.ok (acc, req))
  | CertBlob.bad _ :: _ => Except.error PyExn.parseError
  | CertBlob.good x :: rest =>
    if x.isCA then processRest req (acc ++ [x]) rest
    else Except.ok (Except.error ⟨PyRet.pyNone, req, some caFlagMsg⟩)

/-- The certificate-parsing loop of `verify_x509`: index 0 is the leaf
(date check, requestor extraction with wildcard stripping), later indices
must carry the CA flag.  The inner `Except.error` is an early `return`
out of the loop; the inner `Except.ok` carries the built chain and the
requestor. -/
def buildChain (req0 : Option String) :
    List CertBlob → Except PyExn (Except VerifyOut (List X509 × Option String))
  | [] => Except.ok (Except.ok ([], req0))
  | CertBlob.bad _ :: _ => Except.error PyExn.parseError
  | CertBlob.good x :: rest =>
    match x.checkDateErr with
    | some e => Except.ok (Except.error ⟨PyRet.pyNone, req0, some e⟩)
    | none => processRest (some (stripWildcard x.commonName)) [x] rest

/-- One step of the chain-signature loop: verify that `prev` was signed by
`x`'s public key using the algorithm stored on `prev`; `none` means the
link verified, `some msg` is the error message of the failing branch. -/
def checkLink (ops : CryptoOps) (prev x : X509) : Option String :=
  match prev.sigAlgo with
  | SigAlgo.rsaSha1 =>
    if ops.hashAndVerify x.publicKey prev.sigBytes prev.signedData then none
    else some chainSigFailMsg
  | SigAlgo.rsaSha256 =>
    if ops.rsaVerify x.publicKey prev.sigBytes (PFX_RSA_SHA256 ++ ops.sha256 prev.signedData) then none
    else some chainSigFailMsg
  | SigAlgo.rsaSha384 =>
    if ops.rsaVerify x.publicKey prev.sigBytes (PFX_RSA_SHA384 ++ ops.sha384 prev.signedData) then none
    else some chainSigFailMsg
  | SigAlgo.rsaSha512 =>
    if ops.rsaVerify x.publicKey prev.sigBytes (PFX_RSA_SHA512 ++ ops.sha512 prev.signedData) then none
    else some chainSigFailMsg
  | SigAlgo.unknownAlgo _ => some algoUnsupportedMsg

/-- The chain-signature loop of `verify_x509` (`for i in range(1,
cert_num)` over the possibly extended chain): returns the error message of
the first failing link, or `none` when every adjacent link verifies. -/
def chainSigLoop (ops : CryptoOps) : List X509 → Option String
  | x :: y :: rest =>
    match checkLink ops x y with
    | some e => some e
    | none => chainSigLoop ops (y :: rest)
  | _ => none

/-- The envelope with its signature field cleared (`paymntreq.signature =
''` before re-serialization). -/
def clearSig (env : PbPaymentRequest) : PbPaymentRequest :=
  { env with signature := [] }

/-- Top-level envelope-signature verification against the leaf's public
key: the envelope is re-serialized with its signature field cleared and
checked according to the PKI type.  `none` models the fact that for any
other PKI type the source would use an unbound local. -/
def topLevelVerify (ops : CryptoOps) (serialize : PbPaymentRequest → List Nat)
    (env : PbPaymentRequest) (pubkey0 : Nat) : Option Bool :=
  let msg := serialize (clearSig env)
  if env.pkiType = "x509+sha256" then
    some (ops.rsaVerify pubkey0 env.signature (PFX_RSA_SHA256 ++ ops.sha256 msg))
  else if env.pkiType = "x509+sha1" then
    some (ops.hashAndVerify pubkey0 env.signature msg)
  else
    none

/-- Trust-anchor resolution of `verify_x509`: if the supplied chain's last
certificate is in `ca_list` by fingerprint the chain is kept; otherwise a
root is recovered through `ca_keyID` by the last certificate's issuer key
identifier and appended, failing with the untrusted-CA error when the
lookup misses (or yields a falsy fingerprint).  `Sum.inl` is an early
`return False`, `Sum.inr` is the chain to continue with. -/
def resolveAnchor (ts : TrustStore) (req : Option String) (chain : List X509)
    (ca : X509) : Except PyExn (Sum VerifyOut (List X509)) :=
  if (ts.caList.lookup ca.fingerprint).isSome then
    Except.ok (Sum.inr chain)
  else
    match ts.caKeyID.lookup ca.issuerKeyID with
    | some f =>
      if f = "" then Except.ok (Sum.inl ⟨PyRet.pyFalse, req, some untrustedCAMsg⟩)
      else
        match ts.caList.lookup f with
        | some root => Except.ok (Sum.inr (chain ++ [root]))
        | none => Except.error PyExn.keyError
    | none => Except.ok (Sum.inl ⟨PyRet.pyFalse, req, some untrustedCAMsg⟩)

/-- Tail of `verify_x509` after trust-anchor resolution: the
chain-signature loop over the (possibly extended) chain, then the
top-level envelope signature against the leaf's key, then the success
message naming `ca` — the last certificate of the *supplied* chain, bound
before any recovery. -/
def afterAnchor (ops : CryptoOps) (serialize : PbPaymentRequest → List Nat)
    (env : PbPaymentRequest) (req : Option String) (ca : X509)
    (chain2 : List X509) : Except PyExn VerifyOut :=
  match chainSigLoop ops chain2 with
  | some msg => Except.ok ⟨PyRet.pyFalse, req, some msg⟩
  | none =>
    match chain2.head? with
    | none => Except.error PyExn.indexError
    | some leaf =>
      match topLevelVerify ops serialize env leaf.publicKey with
      | none => Except.error PyExn.nameError
      | some false => Except.ok ⟨PyRet.pyFalse, req, some envSigFailMsg⟩
      | some true => Except.ok ⟨PyRet.pyTrue, req, some (signedByMsg ca.commonName)⟩

/-- Translation of `PaymentRequest.verify_x509`. -/
def verify_x509 (ts : TrustStore) (ops : CryptoOps)
    (serialize : PbPaymentRequest → List Nat)
    (req0 : Option String) (env : PbPaymentRequest) : Except PyExn VerifyOut :=
  if ts.caList.isEmpty then
    Except.ok ⟨PyRet.pyFalse, req0, some noTrustStoreMsg⟩
  else
    match env.pkiData.asCerts with
    | ParsedCerts.malformed => Except.error PyExn.parseError
    | ParsedCerts.ok blobs =>
      match buildChain req0 blobs with
      | Except.error e => Except.error e
      | Except.ok (Except.error out) => Except.ok out
      | Except.ok (Except.ok (chain, req)) =>
        if blobs.length ≤ 1 then
          Except.ok ⟨PyRet.pyFalse, req, some noCertsMsg⟩
        else
          match chain.getLast? with
          | none => Except.error PyExn.indexError
          | some ca =>
            match resolveAnchor ts req chain ca with
            | Except.error e => Except.error e
            | Except.ok (Sum.inl out) => Except.ok out
            | Except.ok (Sum.inr chain2) => afterAnchor ops serialize env req ca chain2

/-- Translation of `PaymentRequest.verify_dnssec`. -/
def verify_dnssec (ops : CryptoOps) (serialize : PbPaymentRequest → List Nat)
    (resolve : String → ResolveInfo) (req0 : Option String)
    (env : PbPaymentRequest) : VerifyOut :=
  let sig := env.signature
  let aliasStr := env.pkiData.asAlias
  let info := resolve aliasStr
  if info.validated = some true then
    if env.pkiType = "dnssec+btc" then
      let message := serialize (clearSig env)
      if ops.verifyMessage info.address sig message then
        ⟨PyRet.pyTrue, some aliasStr, some dnssecOkMsg⟩
      else
        ⟨PyRet.pyFalse, some aliasStr, some dnssecSigFailMsg⟩
    else
      ⟨PyRet.pyFalse, req0, some unknownAlgoMsg⟩
  else
    ⟨PyRet.pyFalse, req0, some aliasUnverifiedMsg⟩

/-- Translation of `PaymentRequest.verify`: empty-request and
missing-signature guards, then dispatch on the PKI type.  The bytes of a
non-decoding raw request raise out of the uncaught `ParseFromString`
call. -/
def verify (ts : TrustStore) (ops : CryptoOps)
    (serialize : PbPaymentRequest → List Nat)
    (resolve : String → ResolveInfo)
    (req0 : Option String) (raw : RawData) : Except PyExn VerifyOut :=
  match raw with
  | RawData.empty => Except.ok ⟨PyRet.pyNone, req0, some emptyRequestMsg⟩
  | RawData.malformed => Except.error PyExn.parseError
  | RawData.valid env =>
    if env.signature = [] then
      Except.ok ⟨PyRet.pyNone, req0, some noSignatureMsg⟩
    else if env.pkiType = "x509+sha256" ∨ env.pkiType = "x509+sha1" then
      verify_x509 ts ops serialize req0 env
    else if env.pkiType = "dnssec+btc" ∨ env.pkiType = "dnssec+ecdsa" then
      Except.ok (verify_dnssec ops serialize resolve req0 env)
    else
      Except.ok ⟨PyRet.pyFalse, req0, some unsupportedPkiMsg⟩

/-- Translation of `PaymentRequest.has_expired`: truthy iff an expiry is
set (non-zero) and is strictly below the current time. -/
def has_expired (expires now : Nat) : Bool :=
  expires != 0 && decide (expires < now)

/-- Translation of `PaymentRequest.get_requestor`: the requestor field if
it is set and truthy, else the string `unknown`. -/
def get_requestor (requestor : Option String) : String :=
  match requestor with
  | some r => if r = "" then "unknown" else r
  | none => "unknown"

/-- Status constant: payment request unpaid. -/
def PR_UNPAID : Nat := 0

/-- Status constant: payment request expired. -/
def PR_EXPIRED : Nat := 1

/-- Status constant: payment request paid. -/
def PR_PAID : Nat := 3

/-- The slice of a stored `PaymentRequest` that `get_status` reads: the
settling transaction id and the details' expiry time. -/
structure InvoiceRec where
  tx : Option String
  expires : Nat
deriving DecidableEq

/-- Translation of `InvoiceStore.get`: a plain dictionary `get`, `none`
when the key is absent. -/
def InvoiceStore.get (invoices : List (String × InvoiceRec)) (k : String) :
    Option InvoiceRec :=
  invoices.lookup k

/-- Translation of `InvoiceStore.get_status`: paid if a settling
transaction is recorded, else expired or unpaid by `has_expired`.  When
the key is absent, `get` returns `None` and the attribute access `pr.tx`
raises. -/
def InvoiceStore.get_status (invoices : List (String × InvoiceRec))
    (key : String) (now : Nat) : Except PyExn Nat :=
  match InvoiceStore.get invoices key with
  | none => Except.error PyExn.attributeError
  | some pr =>
    if pr.tx ≠ none then Except.ok PR_PAID
    else if has_expired pr.expires now then Except.ok PR_EXPIRED
    else Except.ok PR_UNPAID

deriving instance DecidableEq for Except

/-- Concrete crypto collaborator whose verification primitives always
succeed, for witnesses and counterexamples. -/
def opsAllOk : CryptoOps :=
  ⟨fun l => l, fun l => l, fun l => l, fun _ _ _ => true, fun _ _ _ => true,
    fun _ _ _ => true⟩

/-- Concrete serializer for witnesses. -/
def serNil : PbPaymentRequest → List Nat := fun _ => []

/-- Concrete resolver reporting every alias as DNSSEC-validated. -/
def resolveYes : String → ResolveInfo := fun _ => ⟨some true, "addr1"⟩

/-- Concrete resolver reporting every alias as not validated. -/
def resolveNo : String → ResolveInfo := fun _ => ⟨some false, "addr1"⟩

/-- Concrete leaf certificate with a wildcard common name. -/
def certLeaf : X509 :=
  ⟨"*.example.com", none, false, "fpLeaf", "kidMid", 10, SigAlgo.rsaSha256, [1], [2]⟩

/-- Concrete intermediate CA certificate whose issuer key identifier
points at the trusted root. -/
def certMid : X509 :=
  ⟨"Mid CA", none, true, "fpMid", "kidRoot", 11, SigAlgo.rsaSha256, [3], [4]⟩

/-- Concrete trusted root certificate. -/
def certRoot : X509 :=
  ⟨"Root CA", none, true, "fpRoot", "kidTop", 12, SigAlgo.rsaSha256, [5], [6]⟩

/-- Concrete expired leaf certificate (its `check_date` raises). -/
def certExpired : X509 :=
  ⟨"old.example.com", some "certificate has expired", false, "fpOld", "kidOld",
    13, SigAlgo.rsaSha256, [7], [8]⟩

/-- Concrete trust store holding the root by fingerprint and by issuer key
identifier. -/
def tsWithRoot : TrustStore := ⟨[("fpRoot", certRoot)], [("kidRoot", "fpRoot")]⟩

/-- Concrete trust store holding the root by fingerprint only. -/
def tsFpOnly : TrustStore := ⟨[("fpRoot", certRoot)], []⟩

/-- Concrete trust store holding the intermediate itself by fingerprint. -/
def tsWithMid : TrustStore := ⟨[("fpMid", certMid)], []⟩

/-- Concrete x509 envelope carrying the leaf and the intermediate. -/
def envTwoCert : PbPaymentRequest :=
  ⟨"x509+sha256", ⟨ParsedCerts.ok [CertBlob.good certLeaf, CertBlob.good certMid], ""⟩, [9]⟩

/-- Concrete x509 envelope carrying only the expired leaf. -/
def envOneExpired : PbPaymentRequest :=
  ⟨"x509+sha256", ⟨ParsedCerts.ok [CertBlob.good certExpired], ""⟩, [9]⟩

/-- Concrete x509 envelope carrying only the (in-window) leaf. -/
def envOneLeaf : PbPaymentRequest :=
  ⟨"x509+sha256", ⟨ParsedCerts.ok [CertBlob.good certLeaf], ""⟩, [9]⟩

/-- Concrete x509 envelope with an empty certificate list. -/
def envNoCerts : PbPaymentRequest :=
  ⟨"x509+sha256", ⟨ParsedCerts.ok [], ""⟩, [9]⟩

/-- Concrete dnssec+btc envelope. -/
def envDnssecBtc : PbPaymentRequest :=
  ⟨"dnssec+btc", ⟨ParsedCerts.malformed, "alias.example"⟩, [9]⟩

/-- Concrete dnssec+ecdsa envelope. -/
def envDnssecEcdsa : PbPaymentRequest :=
  ⟨"dnssec+ecdsa", ⟨ParsedCerts.malformed, "alias.example"⟩, [9]⟩

/-- A successful association-list lookup implies the list is nonempty. -/
theorem lookup_isSome_ne_nil {α β : Type} [BEq α] {a : α} {l : List (α × β)}
    (h : (l.lookup a).isSome = true) : l ≠ [] := by
  intro hnil
  subst hnil
  simp [List.lookup] at h

/-- A nonempty list is not `isEmpty`. -/
theorem isEmpty_false_of_ne_nil {α : Type} {l : List α} (h : l ≠ []) :
    l.isEmpty = false := by
  cases l with
  | nil => exact absurd rfl h
  | cons a as => rfl

/-- The index-`≥ 1` loop keeps going over all-CA parseable certificates and
returns the accumulated chain. -/
theorem processRest_allCA (cs : List X509) :
    ∀ (req : Option String) (acc : List X509),
    (∀ c ∈ cs, c.isCA = true) →
    processRest req acc (cs.map CertBlob.good) =
      Except.ok (Except.ok (acc ++ cs, req)) := by
  induction cs with
  | nil =>
    intro req acc _
    simp [processRest]
  | cons x xs ih =>
    intro req acc h
    have hx : x.isCA = true := h x (List.mem_cons_self x xs)
    have hxs : ∀ c ∈ xs, c.isCA = true := fun c hc => h c (List.mem_cons_of_mem x hc)
    simp [processRest, hx, ih req (acc ++ [x]) hxs]

/-- The certificate loop on a parseable chain whose leaf is in its window
and whose tail is all-CA yields the chain and the stripped leaf common
name as requestor. -/
theorem buildChain_good (leaf : X509) (cs : List X509) (req0 : Option String)
    (hdate : leaf.checkDateErr = none) (hcas : ∀ c ∈ cs, c.isCA = true) :
    buildChain req0 ((leaf :: cs).map CertBlob.good) =
      Except.ok (Except.ok (leaf :: cs, some (stripWildcard leaf.commonName))) := by
  simp [buildChain, hdate,
    processRest_allCA cs (some (stripWildcard leaf.commonName)) [leaf] hcas]

/-- On parseable blobs the index-`≥ 1` loop never raises: it either early
returns a falsy result with an error message, or completes with a chain of
the expected length. -/
theorem processRest_total (blobs : List CertBlob) :
    ∀ (req : Option String) (acc : List X509),
    (∀ b ∈ blobs, ∃ c, b = CertBlob.good c) →
    (∃ out, processRest req acc blobs = Except.ok (Except.error out) ∧
        out.ret ≠ PyRet.pyTrue ∧ out.error.isSome = true) ∨
    (∃ chain, processRest req acc blobs = Except.ok (Except.ok (chain, req)) ∧
        chain.length = acc.length + blobs.length) := by
  induction blobs with
  | nil =>
    intro req acc _
    right
    exact ⟨acc, by simp [processRest], by simp⟩
  | cons b bs ih =>
    intro req acc h
    obtain ⟨c, rfl⟩ := h b (List.mem_cons_self b bs)
    have hbs : ∀ x ∈ bs, ∃ y, x = CertBlob.good y :=
      fun x hx => h x (List.mem_cons_of_mem _ hx)
    by_cases hca : c.isCA = true
    · rcases ih req (acc ++ [c]) hbs with ⟨out, ho, h1, h2⟩ | ⟨chain, hc2, hlen⟩
      · left
        refine ⟨out, ?_, h1, h2⟩
        simpa [processRest, hca] using ho
      · right
        refine ⟨chain, ?_, ?_⟩
        · simpa [processRest, hca] using hc2
        · simp only [List.length_append, List.length_cons, List.length_nil] at hlen ⊢
          omega
    · left
      refine ⟨⟨PyRet.pyNone, req, some caFlagMsg⟩, ?_, by simp, rfl⟩
      simp [processRest, hca]

/-- On parseable blobs the whole certificate loop never raises. -/
theorem buildChain_total (blobs : List CertBlob) (req0 : Option String)
    (h : ∀ b ∈ blobs, ∃ c, b = CertBlob.good c) :
    (∃ out, buildChain req0 blobs = Except.ok (Except.error out) ∧
        out.ret ≠ PyRet.pyTrue ∧ out.error.isSome = true) ∨
    (∃ chain req, buildChain req0 blobs = Except.ok (Except.ok (chain, req)) ∧
        chain.length = blobs.length) := by
  cases blobs with
  | nil =>
    right
    exact ⟨[], req0, by simp [buildChain], by simp⟩
  | cons b bs =>
    obtain ⟨c, rfl⟩ := h b (List.mem_cons_self b bs)
    have hbs : ∀ x ∈ bs, ∃ y, x = CertBlob.good y :=
      fun x hx => h x (List.mem_cons_of_mem _ hx)
    cases hdate : c.checkDateErr with
    | some e =>
      left
      exact ⟨⟨PyRet.pyNone, req0, some e⟩, by simp [buildChain, hdate], by simp, rfl⟩
    | none =>
      rcases processRest_total bs (some (stripWildcard c.commonName)) [c] hbs with
        ⟨out, ho, h1, h2⟩ | ⟨chain, hc2, hlen⟩
      · left
        exact ⟨out, by simpa [buildChain, hdate] using ho, h1, h2⟩
      · right
        refine ⟨chain, some (stripWildcard c.commonName),
          by simpa [buildChain, hdate] using hc2, ?_⟩
        simp only [List.length_cons, List.length_nil] at hlen ⊢
        omega

/-- Whenever trust-anchor resolution continues, the chain it continues with
is the supplied chain, possibly extended by one recovered root. -/
theorem resolveAnchor_inr_shape (ts : TrustStore) (req : Option String)
    (chain : List X509) (ca : X509) (chain2 : List X509)
    (h : resolveAnchor ts req chain ca = Except.ok (Sum.inr chain2)) :
    chain2 = chain ∨ ∃ root, chain2 = chain ++ [root] := by
  unfold resolveAnchor at h
  split at h
  · simp only [Except.ok.injEq, Sum.inr.injEq] at h
    exact Or.inl h.symm
  · split at h
    · split at h
      · simp at h
      · split at h
        · simp only [Except.ok.injEq, Sum.inr.injEq] at h
          exact Or.inr ⟨_, h.symm⟩
        · simp at h
    · simp at h

/-- The head of the chain is unchanged by trust-anchor resolution. -/
theorem resolveAnchor_inr_head (ts : TrustStore) (req : Option String)
    (leaf : X509) (cs : List X509) (ca : X509) (chain2 : List X509)
    (h : resolveAnchor ts req (leaf :: cs) ca = Except.ok (Sum.inr chain2)) :
    chain2.head? = some leaf := by
  rcases resolveAnchor_inr_shape ts req (leaf :: cs) ca chain2 h with h2 | ⟨root, h2⟩ <;>
    subst h2 <;> simp

/-- On a trust store whose key-identifier index only points at stored
fingerprints, trust-anchor resolution never raises: it either fails with
the untrusted-CA message or continues with a chain. -/
theorem resolveAnchor_total (ts : TrustStore) (req : Option String)
    (chain : List X509) (ca : X509)
    (hts : ∀ k f, ts.caKeyID.lookup k = some f →
        f = "" ∨ (ts.caList.lookup f).isSome = true) :
    (∃ out, resolveAnchor ts req chain ca = Except.ok (Sum.inl out) ∧
        out.ret = PyRet.pyFalse ∧ out.error.isSome = true) ∨
    (∃ chain2, resolveAnchor ts req chain ca = Except.ok (Sum.inr chain2)) := by
  by_cases hfp : (ts.caList.lookup ca.fingerprint).isSome = true
  · right
    exact ⟨chain, by simp [resolveAnchor, hfp]⟩
  · cases hk : ts.caKeyID.lookup ca.issuerKeyID with
    | none =>
      left
      exact ⟨⟨PyRet.pyFalse, req, some untrustedCAMsg⟩,
        by simp [resolveAnchor, hfp, hk], rfl, rfl⟩
    | some f =>
      by_cases hf : f = ""
      · left
        exact ⟨⟨PyRet.pyFalse, req, some untrustedCAMsg⟩,
          by simp [resolveAnchor, hfp, hk, hf], rfl, rfl⟩
      · rcases hts _ _ hk with rfl | hsome
        · exact absurd rfl hf
        · right
          obtain ⟨root, hr⟩ := Option.isSome_iff_exists.mp hsome
          exact ⟨chain ++ [root], by simp [resolveAnchor, hfp, hk, hf, hr]⟩

/-- A chain-signature loop that succeeds on a list with two visible head
elements verified the first link and succeeds on the tail. -/
theorem chainSigLoop_cons_none (ops : CryptoOps) (x y : X509) (rest : List X509)
    (h : chainSigLoop ops (x :: y :: rest) = none) :
    checkLink ops x y = none ∧ chainSigLoop ops (y :: rest) = none := by
  cases hc : checkLink ops x y with
  | some e =>
    exfalso
    unfold chainSigLoop at h
    rw [hc] at h
    simp at h
  | none =>
    refine ⟨rfl, ?_⟩
    unfold chainSigLoop at h
    rw [hc] at h
    simpa using h

/-- A chain-signature loop that succeeds on a chain ending in `[a, b]`
verified the final link from `a` to `b`. -/
theorem chainSigLoop_concat_last (ops : CryptoOps) :
    ∀ (init : List X509) (a b : X509),
    chainSigLoop ops (init ++ [a, b]) = none → checkLink ops a b = none := by
  intro init
  induction init with
  | nil =>
    intro a b h
    exact (chainSigLoop_cons_none ops a b [] (by simpa using h)).1
  | cons x init' ih =>
    intro a b h
    cases hsplit : init' ++ [a, b] with
    | nil => exact absurd hsplit (by simp)
    | cons y t =>
      rw [List.cons_append, hsplit] at h
      have h2 := (chainSigLoop_cons_none ops x y t h).2
      exact ih a b (by rw [hsplit]; exact h2)

/-- Unfolding of `verify_x509` up to trust-anchor resolution, for a
parseable chain `leaf :: (mids ++ [ca])` whose leaf is in its validity
window and whose tail certificates all carry the CA flag. -/
theorem verify_x509_anchor_step (ts : TrustStore) (ops : CryptoOps)
    (serialize : PbPaymentRequest → List Nat) (req0 : Option String)
    (env : PbPaymentRequest) (leaf : X509) (mids : List X509) (ca : X509)
    (hne : ts.caList ≠ [])
    (hcerts : env.pkiData.asCerts =
        ParsedCerts.ok ((leaf :: (mids ++ [ca])).map CertBlob.good))
    (hdate : leaf.checkDateErr = none)
    (hcas : ∀ c ∈ mids ++ [ca], c.isCA = true) :
    verify_x509 ts ops serialize req0 env =
      match resolveAnchor ts (some (stripWildcard leaf.commonName))
          (leaf :: (mids ++ [ca])) ca with
      | Except.error e => Except.error e
      | Except.ok (Sum.inl out) => Except.ok out
      | Except.ok (Sum.inr chain2) =>
          afterAnchor ops serialize env (some (stripWildcard leaf.commonName))
            ca chain2 := by
  have hie : ts.caList.isEmpty = false := isEmpty_false_of_ne_nil hne
  have hbc := buildChain_good leaf (mids ++ [ca]) req0 hdate hcas
  have hlast : (leaf :: (mids ++ [ca])).getLast? = some ca := by
    rw [show leaf :: (mids ++ [ca]) = (leaf :: mids) ++ [ca] from rfl,
      List.getLast?_concat]
  have hlen : ¬ (((leaf :: (mids ++ [ca])).map CertBlob.good).length ≤ 1) := by
    simp only [List.length_map, List.length_cons, List.length_append,
      List.length_nil]
    omega
  simp only [verify_x509, hie, Bool.false_eq_true, if_false, hcerts, hbc,
    hlen, ite_false, hlast]

/-- Success lemma for `verify_x509`: when the chain parses, the leaf is in
window, the tail is all-CA, trust-anchor resolution continues with some
chain, every chain link verifies and the top-level signature verifies
against the leaf key, `verify_x509` returns `True` with the stripped leaf
common name as requestor and a success message naming the last certificate
of the *supplied* chain. -/
theorem verify_x509_success (ts : TrustStore) (ops : CryptoOps)
    (serialize : PbPaymentRequest → List Nat) (req0 : Option String)
    (env : PbPaymentRequest) (leaf : X509) (mids : List X509) (ca : X509)
    (chain2 : List X509)
    (hne : ts.caList ≠ [])
    (hcerts : env.pkiData.asCerts =
        ParsedCerts.ok ((leaf :: (mids ++ [ca])).map CertBlob.good))
    (hdate : leaf.checkDateErr = none)
    (hcas : ∀ c ∈ mids ++ [ca], c.isCA = true)
    (hanchor : resolveAnchor ts (some (stripWildcard leaf.commonName))
        (leaf :: (mids ++ [ca])) ca = Except.ok (Sum.inr chain2))
    (hloop : chainSigLoop ops chain2 = none)
    (htop : topLevelVerify ops serialize env leaf.publicKey = some true) :
    verify_x509 ts ops serialize req0 env =
      Except.ok ⟨PyRet.pyTrue, some (stripWildcard leaf.commonName),
        some (signedByMsg ca.commonName)⟩ := by
  have hhead : chain2.head? = some leaf :=
    resolveAnchor_inr_head ts (some (stripWildcard leaf.commonName)) leaf
      (mids ++ [ca]) ca chain2 hanchor
  rw [verify_x509_anchor_step ts ops serialize req0 env leaf mids ca hne hcerts
    hdate hcas, hanchor]
  simp only [afterAnchor, hloop, hhead, htop]

/-- Failure lemma for `verify_x509`: when the chain parses, the leaf is in
window, the tail is all-CA, but the last supplied certificate is not in the
trust store and its issuer key identifier is not indexed either,
`verify_x509` returns `False` with the untrusted-CA message — and with the
stripped leaf common name still recorded as requestor. -/
theorem verify_x509_untrusted (ts : TrustStore) (ops : CryptoOps)
    (serialize : PbPaymentRequest → List Nat) (req0 : Option String)
    (env : PbPaymentRequest) (leaf : X509) (mids : List X509) (ca : X509)
    (hne : ts.caList ≠ [])
    (hcerts : env.pkiData.asCerts =
        ParsedCerts.ok ((leaf :: (mids ++ [ca])).map CertBlob.good))
    (hdate : leaf.checkDateErr = none)
    (hcas : ∀ c ∈ mids ++ [ca], c.isCA = true)
    (hfp : ts.caList.lookup ca.fingerprint = none)
    (hk : ts.caKeyID.lookup ca.issuerKeyID = none) :
    verify_x509 ts ops serialize req0 env =
      Except.ok ⟨PyRet.pyFalse, some (stripWildcard leaf.commonName),
        some untrustedCAMsg⟩ := by
  have hanchor : resolveAnchor ts (some (stripWildcard leaf.commonName))
      (leaf :: (mids ++ [ca])) ca =
      Except.ok (Sum.inl ⟨PyRet.pyFalse, some (stripWildcard leaf.commonName),
        some untrustedCAMsg⟩) := by
    simp [resolveAnchor, hfp, hk]
  rw [verify_x509_anchor_step ts ops serialize req0 env leaf mids ca hne hcerts
    hdate hcas, hanchor]

/-- On a decodable certificate payload with parseable blobs and a
consistent trust store, `verify_x509` never raises when called with one of
the two x509 PKI types: it returns `True`, or a falsy value together with
an error message. -/
theorem verify_x509_total (ts : TrustStore) (ops : CryptoOps)
    (serialize : PbPaymentRequest → List Nat) (req0 : Option String)
    (env : PbPaymentRequest)
    (hpki : env.pkiType = "x509+sha256" ∨ env.pkiType = "x509+sha1")
    (hcert : env.pkiData.asCerts ≠ ParsedCerts.malformed)
    (hgood : ∀ blobs, env.pkiData.asCerts = ParsedCerts.ok blobs →
        ∀ b ∈ blobs, ∃ c, b = CertBlob.good c)
    (hts : ∀ k f, ts.caKeyID.lookup k = some f →
        f = "" ∨ (ts.caList.lookup f).isSome = true) :
    ∃ out, verify_x509 ts ops serialize req0 env = Except.ok out ∧
      (out.ret = PyRet.pyTrue ∨
        (out.ret ≠ PyRet.pyTrue ∧ out.error.isSome = true)) := by
  by_cases hie : ts.caList.isEmpty = true
  · exact ⟨⟨PyRet.pyFalse, req0, some noTrustStoreMsg⟩,
      by simp [verify_x509, hie], Or.inr ⟨by simp, rfl⟩⟩
  · have hie' : ts.caList.isEmpty = false := by
      cases hx : ts.caList.isEmpty
      · rfl
      · exact absurd hx hie
    cases hc : env.pkiData.asCerts with
    | malformed => exact absurd hc hcert
    | ok blobs =>
      rcases buildChain_total blobs req0 (hgood blobs hc) with
        ⟨out, ho, h1, h2⟩ | ⟨chain, req, hok, hlen⟩
      · exact ⟨out, by simp [verify_x509, hie', hc, ho], Or.inr ⟨h1, h2⟩⟩
      · by_cases hguard : blobs.length ≤ 1
        · exact ⟨⟨PyRet.pyFalse, req, some noCertsMsg⟩,
            by simp [verify_x509, hie', hc, hok, hguard], Or.inr ⟨by simp, rfl⟩⟩
        · have hchne : chain ≠ [] := by
            intro h0
            rw [h0] at hlen
            simp only [List.length_nil] at hlen
            omega
          obtain ⟨ca, hca⟩ := Option.isSome_iff_exists.mp
            (List.getLast?_isSome.mpr hchne)
          rcases resolveAnchor_total ts req chain ca hts with
            ⟨out, hro, hr1, hr2⟩ | ⟨chain2, hro⟩
          · refine ⟨out, by simp [verify_x509, hie', hc, hok, hguard, hca, hro],
              Or.inr ⟨?_, hr2⟩⟩
            rw [hr1]
            simp
          · cases hloop : chainSigLoop ops chain2 with
            | some msg =>
              exact ⟨⟨PyRet.pyFalse, req, some msg⟩,
                by simp [verify_x509, hie', hc, hok, hguard, hca, hro,
                  afterAnchor, hloop],
                Or.inr ⟨by simp, rfl⟩⟩
            | none =>
              have hne2 : chain2 ≠ [] := by
                rcases resolveAnchor_inr_shape ts req chain ca chain2 hro with
                  h2 | ⟨root, h2⟩ <;> subst h2
                · exact hchne
                · simp
              obtain ⟨leafx, rest2, rfl⟩ : ∃ a t, chain2 = a :: t := by
                cases chain2 with
                | nil => exact absurd rfl hne2
                | cons a t => exact ⟨a, t, rfl⟩
              obtain ⟨b, htv⟩ : ∃ b, topLevelVerify ops serialize env
                  leafx.publicKey = some b := by
                simp only [topLevelVerify]
                by_cases h256 : env.pkiType = "x509+sha256"
                · rw [if_pos h256]
                  exact ⟨_, rfl⟩
                · rcases hpki with h | h
                  · exact absurd h h256
                  · rw [if_neg h256, if_pos h]
                    exact ⟨_, rfl⟩
              cases b with
              | false =>
                exact ⟨⟨PyRet.pyFalse, req, some envSigFailMsg⟩,
                  by simp [verify_x509, hie', hc, hok, hguard, hca, hro,
                    afterAnchor, hloop, htv],
                  Or.inr ⟨by simp, rfl⟩⟩
              | true =>
                exact ⟨⟨PyRet.pyTrue, req, some (signedByMsg ca.commonName)⟩,
                  by simp [verify_x509, hie', hc, hok, hguard, hca, hro,
                    afterAnchor, hloop, htv],
                  Or.inl rfl⟩

/-- The dnssec verifier is total and every falsy outcome carries an error
message. -/
theorem verify_dnssec_total (ops : CryptoOps)
    (serialize : PbPaymentRequest → List Nat)
    (resolve : String → ResolveInfo) (req0 : Option String)
    (env : PbPaymentRequest) :
    (verify_dnssec ops serialize resolve req0 env).ret = PyRet.pyTrue ∨
    ((verify_dnssec ops serialize resolve req0 env).ret ≠ PyRet.pyTrue ∧
      (verify_dnssec ops serialize resolve req0 env).error.isSome = true) := by
  unfold verify_dnssec
  by_cases h1 : (resolve env.pkiData.asAlias).validated = some true
  · by_cases h2 : env.pkiType = "dnssec+btc"
    · by_cases h3 : ops.verifyMessage (resolve env.pkiData.asAlias).address
          env.signature (serialize (clearSig env)) = true
      · left
        simp [h1, h2, h3]
      · right
        simp [h1, h2, h3]
    · right
      simp [h1, h2]
  · right
    simp [h1]

/-- C1: for every valid two-certificate chain — leaf parseable and within
its validity window, CA certificate carrying the CA flag — whose last
(root) certificate's fingerprint is present in the trust store, and whose
chain-link signature and top-level envelope signature are mathematically
valid, `verify_x509` returns `True` and the requestor identity equals the
leaf certificate's common name with a leading wildcard label stripped. -/
theorem c1_two_cert_chain_success (ts : TrustStore) (ops : CryptoOps)
    (serialize : PbPaymentRequest → List Nat) (req0 : Option String)
    (env : PbPaymentRequest) (leaf caCert : X509)
    (hcerts : env.pkiData.asCerts =
        ParsedCerts.ok [CertBlob.good leaf, CertBlob.good caCert])
    (hdate : leaf.checkDateErr = none)
    (hca : caCert.isCA = true)
    (hfp : (ts.caList.lookup caCert.fingerprint).isSome = true)
    (hlink : checkLink ops leaf caCert = none)
    (htop : topLevelVerify ops serialize env leaf.publicKey = some true) :
    verify_x509 ts ops serialize req0 env =
      Except.ok ⟨PyRet.pyTrue, some (stripWildcard leaf.commonName),
        some (signedByMsg caCert.commonName)⟩ := by
  have hne : ts.caList ≠ [] := lookup_isSome_ne_nil hfp
  have hanchor : resolveAnchor ts (some (stripWildcard leaf.commonName))
      (leaf :: ([] ++ [caCert])) caCert =
      Except.ok (Sum.inr (leaf :: ([] ++ [caCert]))) := by
    simp [resolveAnchor, hfp]
  have hloop : chainSigLoop ops (leaf :: ([] ++ [caCert])) = none := by
    simp [chainSigLoop, hlink]
  exact verify_x509_success ts ops serialize req0 env leaf [] caCert
    (leaf :: ([] ++ [caCert])) hne hcerts hdate (by simpa using hca) hanchor
    hloop htop

/-- Witness for C1 at a concrete two-certificate chain whose CA is stored
by fingerprint. -/
theorem c1_witness :
    verify_x509 tsWithMid opsAllOk serNil none envTwoCert =
      Except.ok ⟨PyRet.pyTrue, some (stripWildcard certLeaf.commonName),
        some (signedByMsg certMid.commonName)⟩ :=
  c1_two_cert_chain_success tsWithMid opsAllOk serNil none envTwoCert certLeaf
    certMid (by decide) (by decide) (by decide) (by decide) (by decide)
    (by decide)

/-- C2: for every parseable, in-window, all-CA chain whose last supplied
certificate's fingerprint is absent from the trust store: if the store
indexes a root under that certificate's issuer key identifier, the
recovered root is appended and verification proceeds, succeeding when all
remaining checks pass, with the chain-signature loop also having verified
the recovered root's signature over the second-to-last certificate; if no
such root is indexed, verification fails with the untrusted-CA error. -/
theorem c2_trust_anchor_recovery (ts : TrustStore) (ops : CryptoOps)
    (serialize : PbPaymentRequest → List Nat) (req0 : Option String)
    (env : PbPaymentRequest) (leaf : X509) (mids : List X509) (ca : X509)
    (hne : ts.caList ≠ [])
    (hcerts : env.pkiData.asCerts =
        ParsedCerts.ok ((leaf :: (mids ++ [ca])).map CertBlob.good))
    (hdate : leaf.checkDateErr = none)
    (hcas : ∀ c ∈ mids ++ [ca], c.isCA = true)
    (hfp : ts.caList.lookup ca.fingerprint = none) :
    (∀ f root, ts.caKeyID.lookup ca.issuerKeyID = some f → f ≠ "" →
       ts.caList.lookup f = some root →
       chainSigLoop ops ((leaf :: (mids ++ [ca])) ++ [root]) = none →
       topLevelVerify ops serialize env leaf.publicKey = some true →
       verify_x509 ts ops serialize req0 env =
         Except.ok ⟨PyRet.pyTrue, some (stripWildcard leaf.commonName),
           some (signedByMsg ca.commonName)⟩ ∧
       checkLink ops ca root = none) ∧
    (ts.caKeyID.lookup ca.issuerKeyID = none →
       verify_x509 ts ops serialize req0 env =
         Except.ok ⟨PyRet.pyFalse, some (stripWildcard leaf.commonName),
           some untrustedCAMsg⟩) := by
  constructor
  · intro f root hk hf hr hloop htop
    have hanchor : resolveAnchor ts (some (stripWildcard leaf.commonName))
        (leaf :: (mids ++ [ca])) ca =
        Except.ok (Sum.inr ((leaf :: (mids ++ [ca])) ++ [root])) := by
      simp [resolveAnchor, hfp, hk, hf, hr]
    refine ⟨verify_x509_success ts ops serialize req0 env leaf mids ca
      ((leaf :: (mids ++ [ca])) ++ [root]) hne hcerts hdate hcas hanchor hloop
      htop, ?_⟩
    refine chainSigLoop_concat_last ops (leaf :: mids) ca root ?_
    have hassoc : (leaf :: mids) ++ [ca, root] =
        (leaf :: (mids ++ [ca])) ++ [root] := by
      simp
    rw [hassoc]
    exact hloop
  · intro hk
    exact verify_x509_untrusted ts ops serialize req0 env leaf mids ca hne
      hcerts hdate hcas hfp hk

/-- Witness for C2: recovery succeeds at a concrete chain whose root is
absent by fingerprint but indexed by issuer key identifier, verifying the
recovered root's link; and the same chain fails with the untrusted-CA
error against a store without that index entry. -/
theorem c2_witness :
    (verify_x509 tsWithRoot opsAllOk serNil none envTwoCert =
       Except.ok ⟨PyRet.pyTrue, some (stripWildcard certLeaf.commonName),
         some (signedByMsg certMid.commonName)⟩ ∧
     checkLink opsAllOk certMid certRoot = none) ∧
    verify_x509 tsFpOnly opsAllOk serNil none envTwoCert =
      Except.ok ⟨PyRet.pyFalse, some (stripWildcard certLeaf.commonName),
        some untrustedCAMsg⟩ :=
  ⟨(c2_trust_anchor_recovery tsWithRoot opsAllOk serNil none envTwoCert
      certLeaf [] certMid (by decide) (by decide) (by decide) (by decide)
      (by decide)).1 "fpRoot" certRoot (by decide) (by decide) (by decide)
      (by decide) (by decide),
   (c2_trust_anchor_recovery tsFpOnly opsAllOk serNil none envTwoCert
      certLeaf [] certMid (by decide) (by decide) (by decide) (by decide)
      (by decide)).2 (by decide)⟩

/-- C3 counterexample: `verify` on raw bytes that fail to decode
propagates the parse exception past its boundary instead of setting a
status string and returning a falsy value (the `ParseFromString` call in
`verify` is not wrapped in a try/except, unlike the one in `parse`). -/
theorem c3_counterexample :
    verify tsWithRoot opsAllOk serNil resolveYes none RawData.malformed =
      Except.error PyExn.parseError := by
  decide

/-- C3 amended: provided the raw envelope bytes decode, the certificate
payload and every certificate blob decode, and the trust store's
key-identifier index only points at stored fingerprints, `verify` never
raises: it returns `True`, or a falsy value with a status message set.
Undecodable raw bytes (and malformed certificate payloads or blobs)
instead propagate an exception. -/
theorem c3_amended_no_raise (ts : TrustStore) (ops : CryptoOps)
    (serialize : PbPaymentRequest → List Nat)
    (resolve : String → ResolveInfo) (raw : RawData)
    (hraw : raw ≠ RawData.malformed)
    (henv : ∀ env, raw = RawData.valid env →
        env.pkiData.asCerts ≠ ParsedCerts.malformed ∧
        ∀ blobs, env.pkiData.asCerts = ParsedCerts.ok blobs →
          ∀ b ∈ blobs, ∃ c, b = CertBlob.good c)
    (hts : ∀ k f, ts.caKeyID.lookup k = some f →
        f = "" ∨ (ts.caList.lookup f).isSome = true) :
    ∃ out, verify ts ops serialize resolve none raw = Except.ok out ∧
      (out.ret = PyRet.pyTrue ∨
        (out.ret ≠ PyRet.pyTrue ∧ out.error.isSome = true)) := by
  cases raw with
  | empty =>
    exact ⟨⟨PyRet.pyNone, none, some emptyRequestMsg⟩, by simp [verify],
      Or.inr ⟨by simp, rfl⟩⟩
  | malformed => exact absurd rfl hraw
  | valid env =>
    obtain ⟨hcert, hgood⟩ := henv env rfl
    by_cases hsig : env.signature = []
    · exact ⟨⟨PyRet.pyNone, none, some noSignatureMsg⟩,
        by simp [verify, hsig], Or.inr ⟨by simp, rfl⟩⟩
    · by_cases hx : env.pkiType = "x509+sha256" ∨ env.pkiType = "x509+sha1"
      · obtain ⟨out, ho, hcases⟩ :=
          verify_x509_total ts ops serialize none env hx hcert hgood hts
        exact ⟨out, by simp [verify, hsig, hx, ho], hcases⟩
      · by_cases hd : env.pkiType = "dnssec+btc" ∨ env.pkiType = "dnssec+ecdsa"
        · exact ⟨verify_dnssec ops serialize resolve none env,
            by simp [verify, hsig, hx, hd],
            verify_dnssec_total ops serialize resolve none env⟩
        · exact ⟨⟨PyRet.pyFalse, none, some unsupportedPkiMsg⟩,
            by simp [verify, hsig, hx, hd], Or.inr ⟨by simp, rfl⟩⟩

/-- Witness for the amended C3 at concrete decodable inputs. -/
theorem c3_witness :
    ∃ out, verify tsFpOnly opsAllOk serNil resolveYes none RawData.empty =
      Except.ok out ∧
      (out.ret = PyRet.pyTrue ∨
        (out.ret ≠ PyRet.pyTrue ∧ out.error.isSome = true)) :=
  c3_amended_no_raise tsFpOnly opsAllOk serNil resolveYes RawData.empty
    (by decide) (fun env h => nomatch h)
    (by
      intro k f h
      simp [tsFpOnly, List.lookup] at h)

/-- C4 counterexample: a single-certificate chain whose lone (leaf)
certificate is outside its validity window fails with the date error, not
with the fewer-than-2-certificates error — so the count check is not
applied before leaf time-window validation. -/
theorem c4_counterexample :
    verify_x509 tsWithRoot opsAllOk serNil none envOneExpired =
      Except.ok ⟨PyRet.pyNone, none, some "certificate has expired"⟩ ∧
    ("certificate has expired" : String) ≠ noCertsMsg := by
  constructor
  · decide
  · decide

/-- C4 amended: for a single-certificate chain that parses, the
fewer-than-2-certificates check runs after the leaf's time-window check:
an in-window lone leaf fails with the no-certificates error (returning
`False`, regardless of signature validity, with the stripped common name
already recorded), while an out-of-window lone leaf fails with the date
error instead (returning `None`). -/
theorem c4_single_cert_order (ts : TrustStore) (ops : CryptoOps)
    (serialize : PbPaymentRequest → List Nat) (req0 : Option String)
    (env : PbPaymentRequest) (leaf : X509)
    (hne : ts.caList ≠ [])
    (hcerts : env.pkiData.asCerts = ParsedCerts.ok [CertBlob.good leaf]) :
    (leaf.checkDateErr = none →
      verify_x509 ts ops serialize req0 env =
        Except.ok ⟨PyRet.pyFalse, some (stripWildcard leaf.commonName),
          some noCertsMsg⟩) ∧
    (∀ e, leaf.checkDateErr = some e →
      verify_x509 ts ops serialize req0 env =
        Except.ok ⟨PyRet.pyNone, req0, some e⟩) := by
  have hie : ts.caList.isEmpty = false := isEmpty_false_of_ne_nil hne
  constructor
  · intro hdate
    have hbc : buildChain req0 [CertBlob.good leaf] =
        Except.ok (Except.ok ([leaf], some (stripWildcard leaf.commonName))) := by
      simpa using buildChain_good leaf [] req0 hdate (by intro c hc; simp at hc)
    simp [verify_x509, hie, hcerts, hbc]
  · intro e hdate
    simp [verify_x509, hie, hcerts, buildChain, hdate]

/-- Witness for the amended C4 at a concrete in-window lone leaf. -/
theorem c4_witness :
    verify_x509 tsWithRoot opsAllOk serNil none envOneLeaf =
      Except.ok ⟨PyRet.pyFalse, some (stripWildcard certLeaf.commonName),
        some noCertsMsg⟩ :=
  (c4_single_cert_order tsWithRoot opsAllOk serNil none envOneLeaf certLeaf
    (by decide) (by decide)).1 (by decide)

/-- C5 counterexample: a verification that succeeds via trust-anchor
recovery sets the success message to the common name of the *supplied*
chain's last certificate (absent from the trust store), not to the common
name of the recovered trusted root that terminates the final chain. -/
theorem c5_counterexample :
    verify_x509 tsWithRoot opsAllOk serNil none envTwoCert =
      Except.ok ⟨PyRet.pyTrue, some (stripWildcard certLeaf.commonName),
        some (signedByMsg certMid.commonName)⟩ ∧
    tsWithRoot.caList.lookup certMid.fingerprint = none ∧
    tsWithRoot.caKeyID.lookup certMid.issuerKeyID = some "fpRoot" ∧
    tsWithRoot.caList.lookup "fpRoot" = some certRoot ∧
    signedByMsg certMid.commonName ≠ signedByMsg certRoot.commonName := by
  refine ⟨by decide, by decide, by decide, by decide, by decide⟩

/-- C5 amended: on every fully successful x509 verification the status is
set to the signed-by message naming the common name of the last
certificate of the *supplied* chain (`ca` is bound before recovery); this
equals the trusted root's common name only when no recovery occurred. -/
theorem c5_success_names_supplied_last (ts : TrustStore) (ops : CryptoOps)
    (serialize : PbPaymentRequest → List Nat) (req0 : Option String)
    (env : PbPaymentRequest) (leaf : X509) (mids : List X509) (ca : X509)
    (chain2 : List X509)
    (hne : ts.caList ≠ [])
    (hcerts : env.pkiData.asCerts =
        ParsedCerts.ok ((leaf :: (mids ++ [ca])).map CertBlob.good))
    (hdate : leaf.checkDateErr = none)
    (hcas : ∀ c ∈ mids ++ [ca], c.isCA = true)
    (hanchor : resolveAnchor ts (some (stripWildcard leaf.commonName))
        (leaf :: (mids ++ [ca])) ca = Except.ok (Sum.inr chain2))
    (hloop : chainSigLoop ops chain2 = none)
    (htop : topLevelVerify ops serialize env leaf.publicKey = some true) :
    verify_x509 ts ops serialize req0 env =
      Except.ok ⟨PyRet.pyTrue, some (stripWildcard leaf.commonName),
        some (signedByMsg ca.commonName)⟩ :=
  verify_x509_success ts ops serialize req0 env leaf mids ca chain2 hne hcerts
    hdate hcas hanchor hloop htop

/-- Witness for the amended C5 at a concrete recovery: the supplied chain
ends in the intermediate, the recovered root is appended, and the message
names the intermediate. -/
theorem c5_witness :
    verify_x509 tsWithRoot opsAllOk serNil none envTwoCert =
      Except.ok ⟨PyRet.pyTrue, some (stripWildcard certLeaf.commonName),
        some (signedByMsg certMid.commonName)⟩ :=
  c5_success_names_supplied_last tsWithRoot opsAllOk serNil none envTwoCert
    certLeaf [] certMid ((certLeaf :: ([] ++ [certMid])) ++ [certRoot])
    (by decide) (by decide) (by decide) (by decide) (by decide) (by decide)
    (by decide)

/-- C6 counterexample: an x509 verification that fails with the
untrusted-CA error (a failed verification) still reports the
certificate-derived identity through `get_requestor`, not `unknown`. -/
theorem c6_counterexample :
    verify_x509 tsFpOnly opsAllOk serNil none envTwoCert =
      Except.ok ⟨PyRet.pyFalse, some "example.com", some untrustedCAMsg⟩ ∧
    get_requestor (some "example.com") = "example.com" ∧
    ("example.com" : String) ≠ "unknown" := by
  refine ⟨by decide, by decide, by decide⟩

/-- C6 amended: a verification failure occurring after the leaf's common
name has been extracted (here the untrusted-CA failure) leaves the
certificate-derived identity exposed: the requestor field holds the
stripped leaf common name and `get_requestor` reports it, not `unknown`.
Only failures before that assignment leave the requestor unset. -/
theorem c6_failed_verify_exposes_requestor (ts : TrustStore) (ops : CryptoOps)
    (serialize : PbPaymentRequest → List Nat) (req0 : Option String)
    (env : PbPaymentRequest) (leaf : X509) (mids : List X509) (ca : X509)
    (hne : ts.caList ≠ [])
    (hcerts : env.pkiData.asCerts =
        ParsedCerts.ok ((leaf :: (mids ++ [ca])).map CertBlob.good))
    (hdate : leaf.checkDateErr = none)
    (hcas : ∀ c ∈ mids ++ [ca], c.isCA = true)
    (hfp : ts.caList.lookup ca.fingerprint = none)
    (hk : ts.caKeyID.lookup ca.issuerKeyID = none)
    (hcn : stripWildcard leaf.commonName ≠ "") :
    verify_x509 ts ops serialize req0 env =
      Except.ok ⟨PyRet.pyFalse, some (stripWildcard leaf.commonName),
        some untrustedCAMsg⟩ ∧
    get_requestor (some (stripWildcard leaf.commonName)) =
      stripWildcard leaf.commonName := by
  refine ⟨verify_x509_untrusted ts ops serialize req0 env leaf mids ca hne
    hcerts hdate hcas hfp hk, ?_⟩
  simp [get_requestor, hcn]

/-- Witness for the amended C6 at a concrete untrusted chain. -/
theorem c6_witness :
    verify_x509 tsFpOnly opsAllOk serNil none envTwoCert =
      Except.ok ⟨PyRet.pyFalse, some (stripWildcard certLeaf.commonName),
        some untrustedCAMsg⟩ ∧
    get_requestor (some (stripWildcard certLeaf.commonName)) =
      stripWildcard certLeaf.commonName :=
  c6_failed_verify_exposes_requestor tsFpOnly opsAllOk serNil none envTwoCert
    certLeaf [] certMid (by decide) (by decide) (by decide) (by decide)
    (by decide) (by decide) (by decide)

/-- C7: for every dnssec envelope whose resolver response does not report
the alias as DNSSEC-validated, `verify_dnssec` fails with the
alias-unverified error and returns `False`, with no signature verification
attempted — the outcome is the same for every crypto collaborator,
including one whose signature check always succeeds. -/
theorem c7_alias_unverified (ops : CryptoOps)
    (serialize : PbPaymentRequest → List Nat)
    (resolve : String → ResolveInfo) (req0 : Option String)
    (env : PbPaymentRequest)
    (h : (resolve env.pkiData.asAlias).validated ≠ some true) :
    verify_dnssec ops serialize resolve req0 env =
      ⟨PyRet.pyFalse, req0, some aliasUnverifiedMsg⟩ := by
  simp [verify_dnssec, h]

/-- Witness for C7: an unvalidated alias fails even with the
always-accepting signature collaborator. -/
theorem c7_witness :
    verify_dnssec opsAllOk serNil resolveNo none envDnssecBtc =
      ⟨PyRet.pyFalse, none, some aliasUnverifiedMsg⟩ :=
  c7_alias_unverified opsAllOk serNil resolveNo none envDnssecBtc (by decide)

/-- C8: every `dnssec+ecdsa` envelope with a signature and a
DNSSEC-validated alias is dispatched by `verify` to the alias verifier and
fails there with the unknown-algorithm error, returning `False`; that
message differs from the generic unsupported-PKI-type message, so the two
failures are distinguishable. -/
theorem c8_dnssec_ecdsa_unimplemented (ts : TrustStore) (ops : CryptoOps)
    (serialize : PbPaymentRequest → List Nat)
    (resolve : String → ResolveInfo) (req0 : Option String)
    (env : PbPaymentRequest)
    (hpki : env.pkiType = "dnssec+ecdsa")
    (hsig : env.signature ≠ [])
    (hval : (resolve env.pkiData.asAlias).validated = some true) :
    verify ts ops serialize resolve req0 (RawData.valid env) =
      Except.ok ⟨PyRet.pyFalse, req0, some unknownAlgoMsg⟩ ∧
    unknownAlgoMsg ≠ unsupportedPkiMsg := by
  refine ⟨?_, by decide⟩
  have hx : ¬(env.pkiType = "x509+sha256" ∨ env.pkiType = "x509+sha1") := by
    rw [hpki]
    decide
  have hd : env.pkiType = "dnssec+btc" ∨ env.pkiType = "dnssec+ecdsa" :=
    Or.inr hpki
  have hnb : ¬(env.pkiType = "dnssec+btc") := by
    rw [hpki]
    decide
  simp [verify, hsig, hx, hd, verify_dnssec, hval, hnb, hpki]

/-- Witness for C8 at a concrete validated `dnssec+ecdsa` envelope. -/
theorem c8_witness :
    verify tsWithRoot opsAllOk serNil resolveYes none
      (RawData.valid envDnssecEcdsa) =
      Except.ok ⟨PyRet.pyFalse, none, some unknownAlgoMsg⟩ ∧
    unknownAlgoMsg ≠ unsupportedPkiMsg :=
  c8_dnssec_ecdsa_unimplemented tsWithRoot opsAllOk serNil resolveYes none
    envDnssecEcdsa (by decide) (by decide) (by decide)

/-- C9: `has_expired` is false when no expiry is set (`expires = 0`), true
exactly when a set expiry is strictly below the current time, and false at
exact equality (strict `<` boundary). -/
theorem c9_has_expired_boundary (e n : Nat) :
    (has_expired e n = true ↔ e ≠ 0 ∧ e < n) ∧
    has_expired 0 n = false ∧
    has_expired e e = false := by
  refine ⟨?_, by simp [has_expired], by simp [has_expired]⟩
  simp [has_expired]

/-- Witness for C9 at concrete times: past expiry is expired, unset and
boundary-equal expiries are not. -/
theorem c9_witness :
    has_expired 3 5 = true ∧ has_expired 0 5 = false ∧
    has_expired 4 4 = false :=
  ⟨(c9_has_expired_boundary 3 5).1.mpr (by decide),
   (c9_has_expired_boundary 0 5).2.1,
   (c9_has_expired_boundary 4 4).2.2⟩

/-- C10: `InvoiceStore.get_status` returns one of the paid, expired or
unpaid statuses exactly when the id is present in the store; on an absent
id the lookup yields `None` and the attribute access on it raises, so no
status value is returned — callers must check presence via `get` first. -/
theorem c10_get_status_requires_presence
    (invoices : List (String × InvoiceRec)) (key : String) (now : Nat) :
    (InvoiceStore.get invoices key = none →
      InvoiceStore.get_status invoices key now =
        Except.error PyExn.attributeError) ∧
    (∀ pr, InvoiceStore.get invoices key = some pr →
      ∃ s, InvoiceStore.get_status invoices key now = Except.ok s ∧
        (s = PR_PAID ∨ s = PR_EXPIRED ∨ s = PR_UNPAID)) := by
  constructor
  · intro h
    simp [InvoiceStore.get_status, h]
  · intro pr h
    cases htx : pr.tx with
    | some t =>
      exact ⟨PR_PAID, by simp [InvoiceStore.get_status, h, htx], Or.inl rfl⟩
    | none =>
      by_cases hexp : has_expired pr.expires now = true
      · exact ⟨PR_EXPIRED, by simp [InvoiceStore.get_status, h, htx, hexp],
          Or.inr (Or.inl rfl)⟩
      · exact ⟨PR_UNPAID, by simp [InvoiceStore.get_status, h, htx, hexp],
          Or.inr (Or.inr rfl)⟩

/-- Witness for C10: the absent-id branch raises at a concrete empty
store, and the present-id branch returns a status. -/
theorem c10_witness :
    InvoiceStore.get_status [] "k1" 0 = Except.error PyExn.attributeError ∧
    ∃ s, InvoiceStore.get_status [("k1", ⟨some "tx1", 0⟩)] "k1" 0 =
      Except.ok s ∧ (s = PR_PAID ∨ s = PR_EXPIRED ∨ s = PR_UNPAID) :=
  ⟨(c10_get_status_requires_presence [] "k1" 0).1 (by decide),
   (c10_get_status_requires_presence [("k1", ⟨some "tx1", 0⟩)] "k1" 0).2
     ⟨some "tx1", 0⟩ (by decide)⟩
